import Mathlib

/-
Verification development for the quant-iq-vision portfolio-simulation backend.

The numerical core lives in src/backend/backtester.py (GBM Monte Carlo and
historical scenario replay) and src/backend/main.py (the montecarlo and heston
endpoints: validation, GBM simulation, Heston calibration fallback and path
simulation, and the risk-metric reduction).

Embedding conventions.
Machine floats are modelled by exact rationals.  The transcendental maps
np.exp and np.sqrt are passed as explicit function parameters (exp, sqrt):
every claim below is about the recurrence and aggregation structure of the
simulators, which holds for an arbitrary interpretation of those maps.
Normal random draws are inputs (shock oracles), matching the design note that
only the underlying draws are stochastic and the transform is deterministic.
np.linalg.cholesky is modelled by (a) an exact success test (pdCheck, the
pivot recursion of LAPACK dpotrf, which fails exactly when the matrix is not
positive definite) and (b) the factor itself supplied as an input where the
code consumes it, since exact square roots leave the rationals.
-/

/-- Python str.strip for a Lean string: drop whitespace from both ends
(structural recursion over the character list, so it evaluates in the
kernel). -/
def pyStrip (s : String) : String :=
  String.mk (((s.data.dropWhile Char.isWhitespace).reverse.dropWhile Char.isWhitespace).reverse)

/-- Python str.upper for a Lean string. -/
def pyUpper (s : String) : String :=
  String.mk (s.data.map Char.toUpper)

/-- Ticker cleaning loop shared by the montecarlo endpoint (main.py lines
249-252) and the heston endpoint (main.py lines 372-375): keep the tickers
whose stripped form is nonempty, stripped and upper-cased. -/
def validTickers (tickers : List String) : List String :=
  (tickers.filter (fun t => pyStrip t ≠ "")).map (fun t => pyUpper (pyStrip t))

/-- Input validation performed by both simulation endpoints (main.py lines
245-258 and 368-381): non-empty ticker list, at least one valid cleaned
ticker, and as many valid tickers as weights.  The error strings are the
HTTPException detail strings raised by the source; nothing else about the
request (weights values, path count, horizon) is inspected. -/
def tickersWeightsValidate (tickers : List String) (weights : List ℚ) : Except String (List String) :=
  if tickers.isEmpty then Except.error "At least one ticker must be provided"
  else
    let valid := validTickers tickers
    if valid.isEmpty then Except.error "No valid tickers provided"
    else if valid.length ≠ weights.length then Except.error "Number of tickers must match number of weights"
    else Except.ok valid

/-- Arithmetic mean of a list, as np.mean computes it. -/
def listMean (xs : List ℚ) : ℚ :=
  xs.sum / (xs.length : ℚ)

/-- Embedding of np.percentile with the default linear interpolation: sort,
locate the fractional position q/100 * (n-1), and interpolate between the two
neighbouring order statistics (indices clipped at the top as numpy does). -/
def npPercentile (xs : List ℚ) (q : ℚ) : ℚ :=
  let sorted := List.insertionSort (· ≤ ·) xs
  let n := sorted.length
  let pos : ℚ := q / 100 * ((n : ℚ) - 1)
  let i : Nat := (⌊pos⌋).toNat
  let lo := sorted.getD i 0
  let hi := sorted.getD (min (i + 1) (n - 1)) 0
  lo + (pos - (⌊pos⌋ : ℚ)) * (hi - lo)

/-- Modelled from the spec: the empirical quantile of a sample at fraction p,
linear interpolation between order statistics.  This is the spec-side
definition the VaR claim compares against. -/
def empiricalQuantile (xs : List ℚ) (p : ℚ) : ℚ :=
  let sorted := List.insertionSort (· ≤ ·) xs
  let n := sorted.length
  let pos : ℚ := p * ((n : ℚ) - 1)
  let i : Nat := (⌊pos⌋).toNat
  let lo := sorted.getD i 0
  let hi := sorted.getD (min (i + 1) (n - 1)) 0
  lo + (pos - (⌊pos⌋ : ℚ)) * (hi - lo)

/-- Sequential cumulative product along the time axis, as np.cumprod computes
it: entry t is the product of entries 0..t of f. -/
def cumprod (f : Nat → ℚ) : Nat → ℚ
  | 0 => f 0
  | t + 1 => cumprod f t * f (t + 1)

/-- Column mean of a return matrix (pandas DataFrame.mean), one value per
asset. -/
def colMean {n : Nat} (rows : List (Fin n → ℚ)) (j : Fin n) : ℚ :=
  (rows.map (fun r => r j)).sum / (rows.length : ℚ)

/-- Column covariance of a return matrix (pandas DataFrame.cov, which
normalises by length - 1). -/
def colCov {n : Nat} (rows : List (Fin n → ℚ)) (j k : Fin n) : ℚ :=
  (rows.map (fun r => (r j - colMean rows j) * (r k - colMean rows k))).sum / ((rows.length : ℚ) - 1)

/-- Per-asset per-step log-return drift of the GBM simulator:
drift = mean_log_returns - 0.5 * diag(cov) (backtester.py line 30, main.py
line 310). -/
def gbmDrift {n : Nat} (mean : Fin n → ℚ) (cov : Fin n → Fin n → ℚ) (j : Fin n) : ℚ :=
  mean j - 1 / 2 * cov j j

/-- One day's gross return of asset j at step t:
exp(drift_j + (chol @ shocks.T).T[t, j]) (backtester.py line 36; main.py line
314 computes the identical matrix as shocks @ chol.T). -/
def gbmDailyReturn (exp : ℚ → ℚ) {n : Nat} (chol : Fin n → Fin n → ℚ) (drift : Fin n → ℚ)
    (shocks : Nat → Fin n → ℚ) (t : Nat) (j : Fin n) : ℚ :=
  exp (drift j + ∑ k, chol j k * shocks t k)

/-- Simulated price of asset j after step t: last observed price times the
cumulative product of daily gross returns (backtester.py line 37, main.py
line 316). -/
def gbmPricePath (exp : ℚ → ℚ) {n : Nat} (chol : Fin n → Fin n → ℚ) (drift lastPrices : Fin n → ℚ)
    (shocks : Nat → Fin n → ℚ) (t : Nat) (j : Fin n) : ℚ :=
  lastPrices j * cumprod (fun s => gbmDailyReturn exp chol drift shocks s j) t

/-- Rescaling factor initial_value / (last_prices dot weights)
(backtester.py line 33, main.py line 318). -/
def gbmScaleFactor {n : Nat} (initialValue : ℚ) (lastPrices weights : Fin n → ℚ) : ℚ :=
  initialValue / ∑ j, lastPrices j * weights j

/-- One simulated portfolio path of the GBM Monte Carlo: value
initial_value at time 0 (sim_paths[0, :] = initial_value), and at time t+1
the price-path row t dotted with the weights, times the scale factor
(sim_paths[1:, i], backtester.py lines 31-38, main.py lines 307-319). -/
def gbmSimPath (exp : ℚ → ℚ) {n : Nat} (chol : Fin n → Fin n → ℚ) (drift lastPrices weights : Fin n → ℚ)
    (initialValue : ℚ) (shocks : Nat → Fin n → ℚ) : Nat → ℚ
  | 0 => initialValue
  | t + 1 => (∑ j, gbmPricePath exp chol drift lastPrices shocks t j * weights j) *
      gbmScaleFactor initialValue lastPrices weights

/-- Time series of one GBM portfolio path, time axis 0..n_days: the column of
the (n_days + 1) x n_simulations array sim_paths belonging to one path. -/
def gbmPathList (exp : ℚ → ℚ) {n : Nat} (chol : Fin n → Fin n → ℚ) (drift lastPrices weights : Fin n → ℚ)
    (initialValue : ℚ) (shocks : Nat → Fin n → ℚ) (nDays : Nat) : List ℚ :=
  (List.range (nDays + 1)).map (gbmSimPath exp chol drift lastPrices weights initialValue shocks)

/-- Modelled from the spec: the price path of asset j is the last observed
price times the cumulative product (written as a closed product over steps
0..t) of exp(per-step drift mu_j - sigma_j^2 / 2 plus the Cholesky-correlated
shock). -/
def gbmSpecPricePath (exp : ℚ → ℚ) {n : Nat} (rows : List (Fin n → ℚ)) (chol : Fin n → Fin n → ℚ)
    (lastPrices : Fin n → ℚ) (shocks : Nat → Fin n → ℚ) (t : Nat) (j : Fin n) : ℚ :=
  lastPrices j * ∏ s ∈ Finset.range (t + 1),
    exp (colMean rows j - 1 / 2 * colCov rows j j + ∑ k, chol j k * shocks s k)

/-- Modelled from the spec: portfolio path = initial value at t = 0, and
(price path dot weights) * (initial_value / (last_prices dot weights))
afterwards. -/
def gbmSpecPath (exp : ℚ → ℚ) {n : Nat} (rows : List (Fin n → ℚ)) (chol : Fin n → Fin n → ℚ)
    (lastPrices weights : Fin n → ℚ) (initialValue : ℚ) (shocks : Nat → Fin n → ℚ) : Nat → ℚ
  | 0 => initialValue
  | t + 1 => (∑ j, gbmSpecPricePath exp rows chol lastPrices shocks t j * weights j) *
      (initialValue / ∑ j, lastPrices j * weights j)

/-- Schur complement step of the Cholesky pivot recursion. -/
def schurComplement {n : Nat} (A : Fin (n + 1) → Fin (n + 1) → ℚ) : Fin n → Fin n → ℚ :=
  fun i j => A i.succ j.succ - A i.succ 0 * A 0 j.succ / A 0 0

/-- Success test of np.linalg.cholesky (LAPACK dpotrf): the factorization
succeeds exactly when every elimination pivot is positive, i.e. the matrix is
positive definite; otherwise the call raises
LinAlgError("Matrix is not positive definite").  The factor entries involve
square roots that leave the rationals, so code that consumes the factor
receives it as an input. -/
def pdCheck : (n : Nat) → (Fin n → Fin n → ℚ) → Bool
  | 0, _ => true
  | n + 1, A => decide (0 < A 0 0) && pdCheck n (schurComplement A)

/-- Request body of the montecarlo endpoint (main.py lines 77-85). -/
structure MonteCarloRequest where
  tickers : List String
  weights : List ℚ
  start_date : String
  end_date : String
  initial_value : ℚ
  n_simulations : Nat
  n_days : Nat
  benchmark : String

/-- Response body of the montecarlo endpoint (main.py lines 87-98); the
percentiles dict is flattened into its three keys p10/p50/p90. -/
structure MonteCarloResponse where
  percentiles_p10 : List ℚ
  percentiles_p50 : List ℚ
  percentiles_p90 : List ℚ
  mean_path : List ℚ
  final_distribution : List ℚ
  var_5 : ℚ
  mean_final : ℚ
  probability_of_loss : ℚ
  normalized_prices : List (String × List ℚ)
  normalized_dates : List String
  return_distributions : List (String × List ℚ)
  correlation_matrix : List (String × List (String × ℚ))
  message : String

/-- Success message of the montecarlo endpoint (main.py line 346). -/
def mcSuccessMessage : String := "Monte Carlo simulation completed successfully."

/-- Error response the montecarlo endpoint returns when any exception is
raised inside the handler body: empty data and the exception text embedded in
the message (main.py lines 348-361). -/
def mcErrorResponse (e : String) : MonteCarloResponse :=
  { percentiles_p10 := []
    percentiles_p50 := []
    percentiles_p90 := []
    mean_path := []
    final_distribution := []
    var_5 := 0
    mean_final := 0
    probability_of_loss := 0
    normalized_prices := []
    normalized_dates := []
    return_distributions := []
    correlation_matrix := []
    message := "Error: " ++ e }

/-- The try/except wrapper of the montecarlo endpoint: a successful body is
returned as-is, any raised error is converted to the error response
(main.py lines 243 and 348-361). -/
def mcHandle (body : Except String MonteCarloResponse) : MonteCarloResponse :=
  match body with
  | Except.ok r => r
  | Except.error e => mcErrorResponse e

/-- Market data handed to the simulation after the yfinance fetch: the
log-return rows and last adjusted-close prices restricted to the requested
tickers, plus the presentation fields (normalized price chart, return
histograms, correlation table) that the endpoint copies into the response and
that no claim inspects. -/
structure MarketData (n : Nat) where
  logReturns : List (Fin n → ℚ)
  lastPrices : Fin n → ℚ
  normalized_prices : List (String × List ℚ)
  normalized_dates : List String
  return_distributions : List (String × List ℚ)
  correlation_matrix : List (String × List (String × ℚ))

/-- Core of the montecarlo endpoint after validation and data fetch
(main.py lines 294-347): Cholesky-check the covariance of the log returns,
simulate n_simulations paths over n_days, and reduce them to percentile
bands, mean path, final distribution, VaR(5th percentile), mean final value
and probability of loss. -/
def monteCarloCompute (exp : ℚ → ℚ) {n : Nat} (md : MarketData n) (weights : Fin n → ℚ)
    (initialValue : ℚ) (nSims nDays : Nat) (chol : Fin n → Fin n → ℚ)
    (shocks : Nat → Nat → Fin n → ℚ) : Except String MonteCarloResponse :=
  if pdCheck n (colCov md.logReturns) then
    let drift := gbmDrift (colMean md.logReturns) (colCov md.logReturns)
    let pathsAt := fun (t : Nat) => (List.range nSims).map
      (fun i => gbmSimPath exp chol drift md.lastPrices weights initialValue (shocks i) t)
    let finalValues := pathsAt nDays
    Except.ok
      { percentiles_p10 := (List.range (nDays + 1)).map (fun t => npPercentile (pathsAt t) 10)
        percentiles_p50 := (List.range (nDays + 1)).map (fun t => npPercentile (pathsAt t) 50)
        percentiles_p90 := (List.range (nDays + 1)).map (fun t => npPercentile (pathsAt t) 90)
        mean_path := (List.range (nDays + 1)).map (fun t => listMean (pathsAt t))
        final_distribution := finalValues
        var_5 := npPercentile finalValues 5
        mean_final := listMean finalValues
        probability_of_loss := ((finalValues.filter (fun x => x < initialValue)).length : ℚ) /
          (finalValues.length : ℚ)
        normalized_prices := md.normalized_prices
        normalized_dates := md.normalized_dates
        return_distributions := md.return_distributions
        correlation_matrix := md.correlation_matrix
        message := mcSuccessMessage }
  else Except.error "Matrix is not positive definite"

/-- The montecarlo endpoint (main.py lines 242-361): validate the request,
then run the simulation core on the fetched market data, wrapping any error
into the error response.  The weight vector indexed by asset is read off the
request's weight list. -/
def monteCarloEndpoint (exp : ℚ → ℚ) {n : Nat} (req : MonteCarloRequest) (md : MarketData n)
    (chol : Fin n → Fin n → ℚ) (shocks : Nat → Nat → Fin n → ℚ) : MonteCarloResponse :=
  mcHandle (do
    let _ ← tickersWeightsValidate req.tickers req.weights
    monteCarloCompute exp md (fun j => req.weights.getD j.val 0) req.initial_value
      req.n_simulations req.n_days chol shocks)

/-- Heston model parameters of one asset as calibrated by the heston
endpoint: [kappa, theta, xi, rho]. -/
structure HestonParams where
  kappa : ℚ
  theta : ℚ
  xi : ℚ
  rho : ℚ

/-- Time step of the Heston scheme: one trading day (main.py line 394). -/
def hestonDt : ℚ := 1 / 252

/-- Default parameter set substituted when calibration of an asset raises
(main.py line 491): [3.0, 0.04, 0.5, -0.7]. -/
def hestonDefaultParams : HestonParams :=
  { kappa := 3, theta := 4 / 100, xi := 1 / 2, rho := -(7 / 10) }

/-- Per-asset calibration outcome handling (main.py lines 476-491): a
successful optimizer run yields its parameters, an exception is swallowed and
replaced by the fixed default parameter set.  Nothing records which branch
was taken. -/
def calibrateAsset (optimizerOutcome : Option HestonParams) : HestonParams :=
  match optimizerOutcome with
  | Option.some p => p
  | Option.none => hestonDefaultParams

/-- The heston_params dict keyed by ticker, read back by asset index
(main.py loop over TICKERS). -/
def calibrateAll {n : Nat} (tickers : List String)
    (optimizerOutcome : String → Option HestonParams) : Fin n → HestonParams :=
  fun i => calibrateAsset (optimizerOutcome (tickers.getD i.val ""))

/-- Instantaneous-variance path of one asset on one path of the Heston
simulation (main.py lines 510-523): V[0] = theta, and
V[t] = |V[t-1] + kappa (theta - V[t-1]) dt + xi sqrt(V[t-1] dt) Z_vol[t]|. -/
def hestonV (sqrt : ℚ → ℚ) (p : HestonParams) (Zvol : Nat → ℚ) : Nat → ℚ
  | 0 => p.theta
  | t + 1 => |hestonV sqrt p Zvol t + p.kappa * (p.theta - hestonV sqrt p Zvol t) * hestonDt +
      p.xi * sqrt (hestonV sqrt p Zvol t * hestonDt) * Zvol (t + 1)|

/-- Price shock of one asset at one step, coupled to its own volatility shock
through the calibrated correlation:
Z_price = rho Z_vol + sqrt(1 - rho^2) Z_uncorr (main.py line 521). -/
def hestonZprice (sqrt : ℚ → ℚ) (p : HestonParams) (Zvol Zuncorr : Nat → ℚ) (t : Nat) : ℚ :=
  p.rho * Zvol t + sqrt (1 - p.rho ^ 2) * Zuncorr t

/-- Price path of one asset on one path of the Heston simulation
(main.py lines 507 and 524): S[0] = starting price, and
S[t] = S[t-1] exp((mu - V[t]/2) dt + sqrt(V[t] dt) Z_price[t]), where V[t] is
the variance already updated at step t. -/
def hestonS (sqrt exp : ℚ → ℚ) (p : HestonParams) (mu s0 : ℚ) (Zvol Zuncorr : Nat → ℚ) : Nat → ℚ
  | 0 => s0
  | t + 1 => hestonS sqrt exp p mu s0 Zvol Zuncorr t *
      exp ((mu - 1 / 2 * hestonV sqrt p Zvol (t + 1)) * hestonDt +
        sqrt (hestonV sqrt p Zvol (t + 1) * hestonDt) * hestonZprice sqrt p Zvol Zuncorr (t + 1))

/-- Price tensor entry S[t, path-fixed, asset j] of the Heston simulation:
each asset evolves with its own parameters, drift entry and shock columns. -/
def hestonAssetPrice (sqrt exp : ℚ → ℚ) {n : Nat} (params : Fin n → HestonParams)
    (mu startPrices : Fin n → ℚ) (Zvol Zuncorr : Nat → Fin n → ℚ) (t : Nat) (j : Fin n) : ℚ :=
  hestonS sqrt exp (params j) (mu j) (startPrices j) (fun s => Zvol s j) (fun s => Zuncorr s j) t

/-- Time series of one asset's Heston price path, time axis 0..n_days: one
fibre of the (n_days + 1) x n_paths x n_assets tensor S. -/
def hestonAssetPathList (sqrt exp : ℚ → ℚ) {n : Nat} (params : Fin n → HestonParams)
    (mu startPrices : Fin n → ℚ) (Zvol Zuncorr : Nat → Fin n → ℚ) (nDays : Nat) (j : Fin n) : List ℚ :=
  (List.range (nDays + 1)).map (fun t => hestonAssetPrice sqrt exp params mu startPrices Zvol Zuncorr t j)

/-- Share counts bought at t = 0: share_counts = weights * initial_value /
last_prices (main.py line 541). -/
def shareCounts {n : Nat} (weights : Fin n → ℚ) (initialValue : ℚ) (lastPrices : Fin n → ℚ)
    (j : Fin n) : ℚ :=
  weights j * initialValue / lastPrices j

/-- Portfolio value of one Heston path at time t: asset prices dotted with
the share counts (main.py line 544 computes this at the final time). -/
def hestonPortfolioValue {n : Nat} (price : Nat → Fin n → ℚ) (sc : Fin n → ℚ) (t : Nat) : ℚ :=
  ∑ j, price t j * sc j

/-- VaR of the final-value distribution at the requested confidence level:
np.percentile(final_portfolio_values, 100 * (1 - confidence)) (main.py line
547). -/
def hestonVaR (finalValues : List ℚ) (confidence : ℚ) : ℚ :=
  npPercentile finalValues (100 * (1 - confidence))

/-- CVaR: the mean of the final values at or below the VaR threshold
(main.py line 550). -/
def hestonCVaR (finalValues : List ℚ) (confidence : ℚ) : ℚ :=
  listMean (finalValues.filter (fun x => x ≤ hestonVaR finalValues confidence))

/-- Request body of the heston endpoint (main.py lines 100-108). -/
structure HestonRequest where
  tickers : List String
  weights : List ℚ
  start_date : String
  end_date : String
  initial_value : ℚ
  n_paths : Nat
  n_days : Nat
  confidence_level : ℚ

/-- Response body of the heston endpoint (main.py lines 110-122).  Note that
no field carries per-asset calibration information. -/
structure HestonResponse where
  final_distribution : List ℚ
  var_value : ℚ
  var_dollar : ℚ
  var_percent : ℚ
  cvar_value : ℚ
  cvar_dollar : ℚ
  lower_bound : ℚ
  upper_bound : ℚ
  mean_value : ℚ
  initial_value : ℚ
  confidence_level : ℚ
  message : String

/-- Success message of the heston endpoint (main.py line 568), a constant
string whatever the calibration outcomes were. -/
def hestonSuccessMessage : String :=
  "Heston simulation completed successfully with calibrated parameters."

/-- Error response of the heston endpoint (main.py lines 570-584). -/
def hestonErrorResponse (req : HestonRequest) (e : String) : HestonResponse :=
  { final_distribution := []
    var_value := 0
    var_dollar := 0
    var_percent := 0
    cvar_value := 0
    cvar_dollar := 0
    lower_bound := 0
    upper_bound := 0
    mean_value := 0
    initial_value := req.initial_value
    confidence_level := req.confidence_level
    message := "Error: " ++ e }

/-- The try/except wrapper of the heston endpoint (main.py lines 366 and
570-584). -/
def hestonHandle (req : HestonRequest) (body : Except String HestonResponse) : HestonResponse :=
  match body with
  | Except.ok r => r
  | Except.error e => hestonErrorResponse req e

/-- Final portfolio values of the Heston simulation, one per path:
final_prices.dot(share_counts) (main.py lines 527-544). -/
def hestonFinalValues (sqrt exp : ℚ → ℚ) {n : Nat} (params : Fin n → HestonParams)
    (mu startPrices weights : Fin n → ℚ) (initialValue : ℚ) (nPaths nDays : Nat)
    (Zvol Zuncorr : Nat → Nat → Fin n → ℚ) : List ℚ :=
  (List.range nPaths).map (fun p =>
    hestonPortfolioValue (hestonAssetPrice sqrt exp params mu startPrices (Zvol p) (Zuncorr p))
      (shareCounts weights initialValue startPrices) nDays)

/-- Simulation and risk-metric section of the heston endpoint
(main.py lines 493-569): run the paths, aggregate with share counts, reduce
to VaR/CVaR/bounds/mean, and return the response with the constant success
message. -/
def hestonRun (sqrt exp : ℚ → ℚ) {n : Nat} (params : Fin n → HestonParams)
    (mu startPrices weights : Fin n → ℚ) (initialValue : ℚ) (nPaths nDays : Nat)
    (confidence : ℚ) (Zvol Zuncorr : Nat → Nat → Fin n → ℚ) : HestonResponse :=
  let f := hestonFinalValues sqrt exp params mu startPrices weights initialValue nPaths nDays Zvol Zuncorr
  { final_distribution := f
    var_value := hestonVaR f confidence
    var_dollar := initialValue - hestonVaR f confidence
    var_percent := (initialValue - hestonVaR f confidence) / initialValue
    cvar_value := hestonCVaR f confidence
    cvar_dollar := initialValue - hestonCVaR f confidence
    lower_bound := npPercentile f 5
    upper_bound := npPercentile f 95
    mean_value := listMean f
    initial_value := initialValue
    confidence_level := confidence
    message := hestonSuccessMessage }

/-- One entry of the fixed scenario catalogue (backtester.py lines 103-114). -/
structure ScenarioEvent where
  label : String
  start : String
  stop : String

/-- The slice log_returns.loc[start:end] of one scenario window, together
with the last available prices inside the window: columns present in the
frame, the per-column return series (None models a NaN entry), the last
price per column, and the number of rows of the slice. -/
structure ReturnWindow where
  cols : List String
  rets : String → List (Option ℚ)
  lastPrice : String → ℚ
  nRows : Nat

/-- Usable asset subset of a window (backtester.py line 122): requested
tickers that are a column of the slice and have no undefined return anywhere
inside it. -/
def availableTickers (tickers : List String) (w : ReturnWindow) : List String :=
  tickers.filter (fun t => decide (t ∈ w.cols) && !((w.rets t).any (fun r => r.isNone)))

/-- Equal weights over the usable subset:
scenario_weights = [1/len(available_tickers)] * len(available_tickers)
(backtester.py line 126). -/
def scenarioWeights (m : Nat) : Fin m → ℚ :=
  fun _ => 1 / (m : ℚ)

/-- One row of the scenarioResults list (backtester.py lines 149-155). -/
structure ScenarioResult where
  event : String
  scenarioLength : Nat
  stocksUsed : String
  portfolioMeanReturn : ℚ
  benchmarkReturn : ℚ

/-- One row of the scenarioDistributions list (backtester.py lines 156-161). -/
structure ScenarioDistribution where
  eventLabel : String
  returns : List ℚ
  portfolioMean : ℚ
  benchmark : ℚ

/-- Return matrix of a window restricted to the usable subset, as rows over
the usable assets; every usable asset has no undefined entry, so the Option
defaults never fire. -/
def windowRows (w : ReturnWindow) (avail : List String) : List (Fin avail.length → ℚ) :=
  (List.range w.nRows).map (fun r => fun j => ((w.rets (avail.get j)).getD r (Option.some 0)).getD 0)

/-- Body of the scenario loop for one catalogue entry (backtester.py lines
120-161): determine the usable subset, skip (None) when fewer than 2 usable
assets remain or the benchmark is not a column, re-estimate mean/covariance
on the window, rerun the GBM simulator with equal weights over the usable
subset for the window length, and report mean simulated drawdown against the
benchmark's realized compound return.  The try/except around the body also
turns a failed Cholesky factorization of the window covariance into a skip.
Missing benchmark entries are read as 0 here; in the source they propagate as
NaN, which no claim exercises. -/
def processScenario (exp : ℚ → ℚ) (nSim : Nat) (initialAmount : ℚ) (tickers : List String)
    (benchmark : String) (chol : Nat → Nat → ℚ) (shocks : Nat → Nat → Nat → ℚ)
    (label : String) (w : ReturnWindow) : Option (ScenarioResult × ScenarioDistribution) :=
  let avail := availableTickers tickers w
  let windowBench : Option String := if benchmark ∈ w.cols then Option.some benchmark else Option.none
  if avail.length < 2 ∨ windowBench = Option.none then Option.none
  else
    let m := avail.length
    let rows := windowRows w avail
    if pdCheck m (colCov rows) then
      let simLen := w.nRows
      let lastPrices : Fin m → ℚ := fun j => w.lastPrice (avail.get j)
      let drift := gbmDrift (colMean rows) (colCov rows)
      let cholM : Fin m → Fin m → ℚ := fun i j => chol i.val j.val
      let outcomes := (List.range nSim).map (fun i =>
        gbmSimPath exp cholM drift lastPrices (scenarioWeights m) initialAmount
          (fun s k => shocks i s k.val) simLen)
      let drawdowns := outcomes.map (fun v => (v - initialAmount) / initialAmount)
      let benchSum := ((w.rets benchmark).map (fun r => r.getD 0)).sum
      let benchDrawdown := (exp benchSum * initialAmount - initialAmount) / initialAmount
      Option.some
        ({ event := label
           scenarioLength := simLen
           stocksUsed := String.intercalate ", " avail
           portfolioMeanReturn := listMean drawdowns
           benchmarkReturn := benchDrawdown },
         { eventLabel := "Stress Test: " ++ label ++ " (" ++ toString simLen ++ "d, " ++
             toString m ++ " stocks)"
           returns := drawdowns
           portfolioMean := listMean drawdowns
           benchmark := benchDrawdown })
    else Option.none

/-- The scenario stress test (backtester.py lines 116-165): fold the
catalogue through the per-window body, collecting the two output lists; a
skipped window contributes to neither.  The caller-supplied weights argument
is part of the signature but, as in the source, never read inside the loop.
The date slicing of the global return frame and the Cholesky factor and
shock draws of each window are supplied as per-event inputs. -/
def scenarioStressTest (exp : ℚ → ℚ) (events : List ScenarioEvent)
    (windows : ScenarioEvent → ReturnWindow) (tickers : List String) (weights : List ℚ)
    (benchmark : String) (chol : ScenarioEvent → Nat → Nat → ℚ)
    (shocks : ScenarioEvent → Nat → Nat → Nat → ℚ) (nSim : Nat) (initialAmount : ℚ) :
    List ScenarioResult × List ScenarioDistribution :=
  (events.filterMap (fun e =>
      (processScenario exp nSim initialAmount tickers benchmark (chol e) (shocks e) e.label
        (windows e)).map Prod.fst),
   events.filterMap (fun e =>
      (processScenario exp nSim initialAmount tickers benchmark (chol e) (shocks e) e.label
        (windows e)).map Prod.snd))

/-- Sequential cumulative product agrees with the closed product over steps
0..t. -/
theorem cumprod_eq_prod_range (f : Nat → ℚ) : ∀ t, cumprod f t = ∏ s ∈ Finset.range (t + 1), f s
  | 0 => by simp [cumprod]
  | t + 1 => by rw [cumprod, cumprod_eq_prod_range f t, ← Finset.prod_range_succ]

/-- C1: the GBM path simulator uses per-step log-return drift
mean_j - cov_jj / 2, builds each simulated price path as the last observed
prices times the cumulative product of exp(drift + Cholesky-correlated
shock), and sets each portfolio path to (price path dot weights) times the
scale factor initial_value / (last_prices dot weights): the code-side
recursion equals the spec-side closed form at every time. -/
theorem gbm_path_construction_matches_spec (exp : ℚ → ℚ) {n : Nat}
    (rows : List (Fin n → ℚ)) (chol : Fin n → Fin n → ℚ)
    (lastPrices weights : Fin n → ℚ) (initialValue : ℚ)
    (shocks : Nat → Fin n → ℚ) (t : Nat) :
    gbmSimPath exp chol (gbmDrift (colMean rows) (colCov rows)) lastPrices weights initialValue
        shocks t =
      gbmSpecPath exp rows chol lastPrices weights initialValue shocks t := by
  cases t with
  | zero => rfl
  | succ s =>
    simp only [gbmSimPath, gbmSpecPath, gbmScaleFactor, gbmPricePath, gbmSpecPricePath,
      gbmDailyReturn, gbmDrift, cumprod_eq_prod_range]

/-- C2: GBM ensembles have time axis of length horizon + 1 and value exactly
the initial value at time 0 on every path; Heston ensembles have time axis of
length horizon + 1, and the t = 0 portfolio value share_counts dot starting
prices equals the initial value exactly, for weights summing to 1 and nonzero
starting prices. -/
theorem ensemble_time_axis_and_exact_initial_value
    (exp sqrt : ℚ → ℚ) {n : Nat} (chol : Fin n → Fin n → ℚ)
    (drift lastPrices weights : Fin n → ℚ) (initialValue : ℚ)
    (shocks : Nat → Fin n → ℚ) (nDays : Nat)
    (params : Fin n → HestonParams) (mu startPrices wts : Fin n → ℚ)
    (Zvol Zuncorr : Nat → Fin n → ℚ) (j : Fin n)
    (hw : ∑ k, wts k = 1) (hp : ∀ k, startPrices k ≠ 0) :
    (gbmPathList exp chol drift lastPrices weights initialValue shocks nDays).length = nDays + 1 ∧
    gbmSimPath exp chol drift lastPrices weights initialValue shocks 0 = initialValue ∧
    (hestonAssetPathList sqrt exp params mu startPrices Zvol Zuncorr nDays j).length = nDays + 1 ∧
    hestonPortfolioValue (hestonAssetPrice sqrt exp params mu startPrices Zvol Zuncorr)
      (shareCounts wts initialValue startPrices) 0 = initialValue := by
  refine ⟨by simp [gbmPathList], rfl, by simp [hestonAssetPathList], ?_⟩
  have h1 : ∀ k : Fin n, hestonAssetPrice sqrt exp params mu startPrices Zvol Zuncorr 0 k *
      shareCounts wts initialValue startPrices k = wts k * initialValue := by
    intro k
    have h0 : hestonAssetPrice sqrt exp params mu startPrices Zvol Zuncorr 0 k = startPrices k := rfl
    rw [h0, shareCounts, mul_comm, div_mul_cancel₀ _ (hp k)]
  rw [hestonPortfolioValue, Finset.sum_congr rfl (fun k _ => h1 k), ← Finset.sum_mul, hw, one_mul]

/-- Witness for C2 at one asset, weight 1, starting price 100 and initial
value 100000. -/
theorem ensemble_time_axis_and_exact_initial_value_witness :
    ((∑ k : Fin 1, (1 : ℚ)) = 1 ∧ (100 : ℚ) ≠ 0) ∧
    hestonPortfolioValue
      (hestonAssetPrice (fun x => x) (fun x => x)
        ((fun _ => hestonDefaultParams) : Fin 1 → HestonParams)
        (fun _ => 0) (fun _ => 100) (fun _ _ => 0) (fun _ _ => 0))
      (shareCounts ((fun _ => 1) : Fin 1 → ℚ) 100000 (fun _ => 100)) 0 = 100000 :=
  ⟨⟨by simp, by norm_num⟩,
    (ensemble_time_axis_and_exact_initial_value (fun x => x) (fun x => x)
      ((fun _ _ => 0) : Fin 1 → Fin 1 → ℚ)
      (fun _ => 0) (fun _ => 100) (fun _ => 1) 100000 (fun _ _ => 0) 3
      (fun _ => hestonDefaultParams) (fun _ => 0) (fun _ => 100) (fun _ => 1)
      (fun _ _ => 0) (fun _ _ => 0) 0 (by simp) (fun k => by norm_num)).2.2.2⟩

/-- C3: the Heston step uses dt = 1/252, seeds V[0] = theta, and for every
t at least 1 updates
V[t] = |V[t-1] + kappa (theta - V[t-1]) dt + xi sqrt(V[t-1] dt) Z_vol[t]| and
S[t] = S[t-1] exp((mu - V[t]/2) dt + sqrt(V[t] dt) Z_price[t]) with
Z_price = rho Z_vol + sqrt(1 - rho^2) Z_uncorr. -/
theorem heston_step_equations (sqrt exp : ℚ → ℚ) (p : HestonParams) (mu s0 : ℚ)
    (Zvol Zuncorr : Nat → ℚ) (t : Nat) (ht : 1 ≤ t) :
    hestonDt = 1 / 252 ∧
    hestonV sqrt p Zvol 0 = p.theta ∧
    hestonV sqrt p Zvol t =
      |hestonV sqrt p Zvol (t - 1) + p.kappa * (p.theta - hestonV sqrt p Zvol (t - 1)) * hestonDt +
        p.xi * sqrt (hestonV sqrt p Zvol (t - 1) * hestonDt) * Zvol t| ∧
    hestonS sqrt exp p mu s0 Zvol Zuncorr t =
      hestonS sqrt exp p mu s0 Zvol Zuncorr (t - 1) *
        exp ((mu - 1 / 2 * hestonV sqrt p Zvol t) * hestonDt +
          sqrt (hestonV sqrt p Zvol t * hestonDt) *
            (p.rho * Zvol t + sqrt (1 - p.rho ^ 2) * Zuncorr t)) := by
  obtain ⟨s, rfl⟩ : ∃ s, t = s + 1 := ⟨t - 1, (Nat.succ_pred_eq_of_pos ht).symm⟩
  exact ⟨rfl, rfl, by simp only [Nat.add_sub_cancel]; rfl, by simp only [Nat.add_sub_cancel]; rfl⟩

/-- Sample parameter set used by witnesses. -/
def hestonSampleParams : HestonParams :=
  { kappa := 2, theta := 1 / 25, xi := 1 / 2, rho := 0 }

/-- Witness for C3 at t = 1 with the sample parameters and unit shocks. -/
theorem heston_step_equations_witness :
    1 ≤ 1 ∧
    hestonV (fun x => x) hestonSampleParams (fun _ => 1) 1 =
      |hestonV (fun x => x) hestonSampleParams (fun _ => 1) 0 +
        hestonSampleParams.kappa *
          (hestonSampleParams.theta - hestonV (fun x => x) hestonSampleParams (fun _ => 1) 0) *
          hestonDt +
        hestonSampleParams.xi *
          (fun x => x) (hestonV (fun x => x) hestonSampleParams (fun _ => 1) 0 * hestonDt) * 1| :=
  ⟨le_refl 1,
    (heston_step_equations (fun x => x) (fun x => x) hestonSampleParams 0 100 (fun _ => 1)
      (fun _ => 1) 1 (le_refl 1)).2.2.1⟩

/-- Mean of a nonempty list is bounded by any upper bound of its entries. -/
theorem listMean_le_of_forall_le (xs : List ℚ) (b : ℚ) (hne : xs ≠ [])
    (h : ∀ x ∈ xs, x ≤ b) : listMean xs ≤ b := by
  have hlen : 0 < (xs.length : ℚ) := by
    have := List.length_pos.mpr hne
    exact_mod_cast this
  rw [listMean, div_le_iff₀ hlen]
  calc xs.sum ≤ xs.length • b := List.sum_le_card_nsmul xs b h
    _ = (xs.length : ℚ) * b := by rw [nsmul_eq_mul]
    _ = b * (xs.length : ℚ) := mul_comm _ _

/-- Rescaling the percentile argument by 100 recovers the quantile at a
fraction. -/
theorem npPercentile_hundred_mul (xs : List ℚ) (p : ℚ) :
    npPercentile xs (100 * p) = empiricalQuantile xs p := by
  have h : (100 : ℚ) * p / 100 = p := by field_simp
  rw [npPercentile, empiricalQuantile, h]

/-- C7: VaR at confidence c is the empirical (1 - c) quantile of the
final-value distribution, CVaR is the mean of the final values at or below
the VaR threshold, and CVaR is at most VaR whenever that tail is
non-empty. -/
theorem var_cvar_empirical_quantile (finalValues : List ℚ) (c : ℚ)
    (htail : finalValues.filter (fun x => x ≤ hestonVaR finalValues c) ≠ []) :
    hestonVaR finalValues c = empiricalQuantile finalValues (1 - c) ∧
    hestonCVaR finalValues c ≤ hestonVaR finalValues c := by
  constructor
  · rw [hestonVaR, npPercentile_hundred_mul]
  · rw [hestonCVaR]
    refine listMean_le_of_forall_le _ _ htail (fun x hx => ?_)
    exact of_decide_eq_true (List.mem_filter.mp hx).2

/-- Witness for C7 at final values [100, 90, 110, 80] and confidence 0.9:
VaR is 83 and the tail below it is [80]. -/
theorem var_cvar_empirical_quantile_witness :
    ([100, 90, 110, 80] : List ℚ).filter
        (fun x => x ≤ hestonVaR [100, 90, 110, 80] (9 / 10)) ≠ [] ∧
    (hestonVaR [100, 90, 110, 80] (9 / 10) =
        empiricalQuantile [100, 90, 110, 80] (1 - 9 / 10) ∧
      hestonCVaR [100, 90, 110, 80] (9 / 10) ≤ hestonVaR [100, 90, 110, 80] (9 / 10)) :=
  ⟨by norm_num [hestonVaR, npPercentile, List.insertionSort, List.orderedInsert, List.filter],
   var_cvar_empirical_quantile _ _
     (by norm_num [hestonVaR, npPercentile, List.insertionSort, List.orderedInsert, List.filter])⟩

/-- C10: the scenario stress test simulates every usable window with equal
weights 1/m over the m usable assets, and the caller-supplied weights
argument is never read, so the output is the same for any two weight
lists. -/
theorem scenario_equal_weights_and_caller_weights_ignored
    (exp : ℚ → ℚ) (events : List ScenarioEvent) (windows : ScenarioEvent → ReturnWindow)
    (tickers : List String) (w1 w2 : List ℚ) (benchmark : String)
    (chol : ScenarioEvent → Nat → Nat → ℚ) (shocks : ScenarioEvent → Nat → Nat → Nat → ℚ)
    (nSim : Nat) (initialAmount : ℚ) (m : Nat) (j : Fin m) :
    scenarioStressTest exp events windows tickers w1 benchmark chol shocks nSim initialAmount =
      scenarioStressTest exp events windows tickers w2 benchmark chol shocks nSim initialAmount ∧
    scenarioWeights m j = 1 / (m : ℚ) :=
  ⟨rfl, rfl⟩

/-- C4: an error raised inside a simulation endpoint aborts the call and is
surfaced verbatim to the caller: the montecarlo wrapper returns the error
response whose message embeds the raised error text and whose data is empty,
likewise the heston wrapper (which also echoes the request's initial value);
neither error message can coincide with the success message, and a
successful body is passed through unchanged. -/
theorem fatal_errors_abort_and_surface (e : String) (req : HestonRequest) :
    (mcHandle (Except.error e)).message = "Error: " ++ e ∧
    (mcHandle (Except.error e)).final_distribution = [] ∧
    (mcHandle (Except.error e)).message ≠ mcSuccessMessage ∧
    (hestonHandle req (Except.error e)).message = "Error: " ++ e ∧
    (hestonHandle req (Except.error e)).initial_value = req.initial_value ∧
    (hestonHandle req (Except.error e)).message ≠ hestonSuccessMessage ∧
    (∀ r : MonteCarloResponse, mcHandle (Except.ok r) = r) ∧
    (∀ r : HestonResponse, hestonHandle req (Except.ok r) = r) := by
  refine ⟨rfl, rfl, ?_, rfl, rfl, ?_, fun r => rfl, fun r => rfl⟩
  · intro h
    have hd : Option.some 'E' = Option.some 'M' := congrArg (fun s => s.data.head?) h
    exact absurd hd (by decide)
  · intro h
    have hd : Option.some 'E' = Option.some 'H' := congrArg (fun s => s.data.head?) h
    exact absurd hd (by decide)

/-- Counterexample for C6: a run whose optimizer succeeded (returning exactly
the default parameters) and a run whose optimizer raised produce identical
responses, so no field of the output lets a consumer distinguish a
fully-calibrated result from a defaulted one; the message is the success
message in both cases. -/
theorem heston_calibration_outcome_indistinguishable :
    hestonRun (fun x => x) (fun x => 1 + x)
        (calibrateAll ["AAPL"] (fun _ => Option.some hestonDefaultParams) : Fin 1 → HestonParams)
        (fun _ => 1 / 10) (fun _ => 100) (fun _ => 1) 100000 2 3 (9 / 10)
        (fun _ _ _ => 0) (fun _ _ _ => 0) =
      hestonRun (fun x => x) (fun x => 1 + x)
        (calibrateAll ["AAPL"] (fun _ => Option.none) : Fin 1 → HestonParams)
        (fun _ => 1 / 10) (fun _ => 100) (fun _ => 1) 100000 2 3 (9 / 10)
        (fun _ _ _ => 0) (fun _ _ _ => 0) ∧
    (hestonRun (fun x => x) (fun x => 1 + x)
        (calibrateAll ["AAPL"] (fun _ => Option.none) : Fin 1 → HestonParams)
        (fun _ => 1 / 10) (fun _ => 100) (fun _ => 1) 100000 2 3 (9 / 10)
        (fun _ _ _ => 0) (fun _ _ _ => 0)).message = hestonSuccessMessage := by
  constructor
  · have h : (calibrateAll ["AAPL"] (fun _ => Option.some hestonDefaultParams) : Fin 1 → HestonParams) =
        (calibrateAll ["AAPL"] (fun _ => Option.none) : Fin 1 → HestonParams) :=
      funext fun i => rfl
    rw [h]
  · rfl

/-- C6 corrected: on optimizer failure the engine does substitute the fixed
default parameter set [3.0, 0.04, 0.5, -0.7] (and keeps the optimizer's
parameters on success), but no calibration-degraded flag is reported: the
heston response carries a constant success message whatever the calibration
outcomes were, and has no field recording them. -/
theorem heston_default_fallback_but_no_degraded_flag (o : HestonParams)
    (sqrt exp : ℚ → ℚ) {n : Nat} (params : Fin n → HestonParams)
    (mu startPrices weights : Fin n → ℚ) (initialValue : ℚ) (nPaths nDays : Nat)
    (confidence : ℚ) (Zvol Zuncorr : Nat → Nat → Fin n → ℚ) :
    calibrateAsset Option.none = hestonDefaultParams ∧
    hestonDefaultParams = { kappa := 3, theta := 4 / 100, xi := 1 / 2, rho := -(7 / 10) } ∧
    calibrateAsset (Option.some o) = o ∧
    (hestonRun sqrt exp params mu startPrices weights initialValue nPaths nDays confidence
        Zvol Zuncorr).message = hestonSuccessMessage :=
  ⟨rfl, rfl, rfl, rfl⟩

/-- C5 corrected: the endpoints' validation inspects only the ticker list
and the valid-ticker/weight count; under those three conditions it accepts,
whatever the weights values, horizon and path count are. -/
theorem validation_checks_only_tickers_and_count (tickers : List String) (weights : List ℚ)
    (h1 : tickers ≠ []) (h2 : validTickers tickers ≠ [])
    (h3 : (validTickers tickers).length = weights.length) :
    tickersWeightsValidate tickers weights = Except.ok (validTickers tickers) := by
  have g1 : ¬ (tickers.isEmpty = true) := fun h => h1 (by simpa using h)
  have g2 : ¬ ((validTickers tickers).isEmpty = true) := fun h => h2 (by simpa using h)
  have g3 : ¬ ((validTickers tickers).length ≠ weights.length) := fun h => h h3
  simp only [tickersWeightsValidate, if_neg g1, if_neg g2, if_neg g3]

/-- Request of the C5 counterexample: horizon 0, path count 3, weights
[1/2, -1/5] with a negative entry and sum 3/10. -/
def mcBadParamsRequest : MonteCarloRequest :=
  { tickers := ["AAPL", "MSFT"]
    weights := [1 / 2, -(1 / 5)]
    start_date := "2020-01-01"
    end_date := "2021-01-01"
    initial_value := 100000
    n_simulations := 3
    n_days := 0
    benchmark := "SPY" }

/-- Witness for the corrected C5 statement at the bad-parameters request. -/
theorem validation_checks_only_tickers_and_count_witness :
    (mcBadParamsRequest.tickers ≠ [] ∧ validTickers mcBadParamsRequest.tickers ≠ [] ∧
      (validTickers mcBadParamsRequest.tickers).length = mcBadParamsRequest.weights.length) ∧
    tickersWeightsValidate mcBadParamsRequest.tickers mcBadParamsRequest.weights =
      Except.ok (validTickers mcBadParamsRequest.tickers) :=
  ⟨⟨by decide, by decide, by decide⟩,
    validation_checks_only_tickers_and_count _ _ (by decide) (by decide) (by decide)⟩

/-- Single-asset request of C9: sigma = 0 and mu = 0, i.e. identically zero
log returns. -/
def mcZeroVarRequest : MonteCarloRequest :=
  { tickers := ["AAPL"]
    weights := [1]
    start_date := "2020-01-01"
    end_date := "2021-01-01"
    initial_value := 100000
    n_simulations := 3
    n_days := 5
    benchmark := "SPY" }

/-- Market data of C9: four identically zero log-return rows (constant
prices), so the sample covariance is the 1x1 zero matrix. -/
def zeroVarMarketData : MarketData 1 :=
  { logReturns := [![0], ![0], ![0], ![0]]
    lastPrices := ![100]
    normalized_prices := []
    normalized_dates := []
    return_distributions := []
    correlation_matrix := [] }

/-- Counterexample for C9: on the single-asset zero-variance zero-mean input
the montecarlo endpoint does not succeed; the 1x1 Cholesky factorization of
the zero covariance fails and the call returns the error response. -/
theorem gbm_zero_variance_cholesky_rejects :
    monteCarloEndpoint (fun x => 1 + x) mcZeroVarRequest zeroVarMarketData
        (fun _ _ => 0) (fun _ _ _ => 0) =
      mcErrorResponse "Matrix is not positive definite" := by
  have hc : colCov zeroVarMarketData.logReturns 0 0 = 0 := by
    simp [colCov, colMean, zeroVarMarketData]
  have hpd : pdCheck 1 (colCov zeroVarMarketData.logReturns) = false := by
    rw [pdCheck, hc]
    simp
  show mcHandle (monteCarloCompute (fun x => 1 + x) zeroVarMarketData
      (fun j => mcZeroVarRequest.weights.getD j.val 0) mcZeroVarRequest.initial_value
      mcZeroVarRequest.n_simulations mcZeroVarRequest.n_days (fun _ _ => 0) (fun _ _ _ => 0)) =
    mcErrorResponse "Matrix is not positive definite"
  rw [monteCarloCompute, hpd]
  simp [mcHandle]

/-- Cumulative product of a constantly-1 sequence is 1. -/
theorem cumprod_of_one (f : Nat → ℚ) (hf : ∀ s, f s = 1) : ∀ t, cumprod f t = 1
  | 0 => by rw [cumprod, hf]
  | t + 1 => by rw [cumprod, cumprod_of_one f hf t, hf, mul_one]

/-- C9 corrected: for a single-asset zero-variance zero-mean input the
sample covariance is the 1x1 zero matrix, np.linalg.cholesky rejects it as
not positive definite, and the simulation call aborts with that error
surfaced in the message instead of producing paths.  Only under a
successfully produced zero factor would the simulator realize the spec's
intended degenerate ensemble: with zero drift, zero correlated shocks and
exp 0 = 1, every path value equals the initial value at every time step. -/
theorem gbm_zero_variance_aborts_at_cholesky :
    colCov zeroVarMarketData.logReturns 0 0 = 0 ∧
    pdCheck 1 (colCov zeroVarMarketData.logReturns) = false ∧
    (monteCarloEndpoint (fun x => 1 + x) mcZeroVarRequest zeroVarMarketData
        (fun _ _ => 0) (fun _ _ _ => 0)).message =
      "Error: " ++ "Matrix is not positive definite" ∧
    ∀ t : Nat, gbmSimPath (fun x => 1 + x) ((fun _ _ => 0) : Fin 1 → Fin 1 → ℚ) (fun _ => 0)
        (fun _ => 100) (fun _ => 1) 100000 (fun _ _ => 0) t = 100000 := by
  have hc : colCov zeroVarMarketData.logReturns 0 0 = 0 := by
    simp [colCov, colMean, zeroVarMarketData]
  have hpd : pdCheck 1 (colCov zeroVarMarketData.logReturns) = false := by
    rw [pdCheck, hc]
    simp
  refine ⟨hc, hpd, ?_, ?_⟩
  · have hrun : monteCarloEndpoint (fun x => 1 + x) mcZeroVarRequest zeroVarMarketData
        (fun _ _ => 0) (fun _ _ _ => 0) =
        mcHandle (monteCarloCompute (fun x => 1 + x) zeroVarMarketData
          (fun j => mcZeroVarRequest.weights.getD j.val 0) mcZeroVarRequest.initial_value
          mcZeroVarRequest.n_simulations mcZeroVarRequest.n_days (fun _ _ => 0)
          (fun _ _ _ => 0)) := rfl
    rw [hrun, monteCarloCompute, hpd]
    simp [mcHandle, mcErrorResponse]
  · intro t
    cases t with
    | zero => rfl
    | succ s =>
      have hone : ∀ u : Nat, gbmDailyReturn (fun x => 1 + x) ((fun _ _ => 0) : Fin 1 → Fin 1 → ℚ)
          (fun _ => 0) (fun _ _ => 0) u 0 = 1 := by
        intro u
        simp [gbmDailyReturn]
      show (∑ j : Fin 1, gbmPricePath (fun x => 1 + x) ((fun _ _ => 0) : Fin 1 → Fin 1 → ℚ)
          (fun _ => 0) (fun _ => 100) (fun _ _ => 0) s j * (1 : ℚ)) *
        gbmScaleFactor 100000 (fun _ => (100 : ℚ)) (fun _ => (1 : ℚ)) = 100000
      rw [Fin.sum_univ_one, gbmPricePath, cumprod_of_one _ (fun u => hone u)]
      rw [gbmScaleFactor, Fin.sum_univ_one]
      norm_num

/-- Two-asset market data with positive-definite sample covariance, used by
the C5 counterexample. -/
def sampleMarketData : MarketData 2 :=
  { logReturns := [![1 / 10, 0], ![-(1 / 10), 1 / 10], ![0, -(1 / 10)]]
    lastPrices := ![100, 50]
    normalized_prices := []
    normalized_dates := []
    return_distributions := []
    correlation_matrix := [] }

/-- Counterexample for C5: the bad-parameters request (horizon 0, negative
weight, weights summing to 3/10) is not rejected with a validation error;
the montecarlo call proceeds and succeeds, returning the success message and
the degenerate all-initial-value ensemble. -/
theorem mc_invalid_parameters_not_rejected :
    mcBadParamsRequest.n_days = 0 ∧
    mcBadParamsRequest.weights.sum ≠ 1 ∧
    ((-(1 / 5) : ℚ) ∈ mcBadParamsRequest.weights ∧ (-(1 / 5) : ℚ) < 0) ∧
    (monteCarloEndpoint (fun x => 1 + x) mcBadParamsRequest sampleMarketData
        (fun _ _ => 0) (fun _ _ _ => 0)).message = mcSuccessMessage ∧
    (monteCarloEndpoint (fun x => 1 + x) mcBadParamsRequest sampleMarketData
        (fun _ _ => 0) (fun _ _ _ => 0)).final_distribution = [100000, 100000, 100000] := by
  have hpd : pdCheck 2 (colCov sampleMarketData.logReturns) = true := by
    simp only [pdCheck, schurComplement, Bool.and_eq_true, decide_eq_true_eq, Bool.and_true]
    norm_num [colCov, colMean, sampleMarketData, Fin.succ_zero_eq_one, Matrix.cons_val_zero,
      Matrix.cons_val_one, Matrix.head_cons]
  have hrun : monteCarloEndpoint (fun x => 1 + x) mcBadParamsRequest sampleMarketData
      (fun _ _ => 0) (fun _ _ _ => 0) =
      mcHandle (monteCarloCompute (fun x => 1 + x) sampleMarketData
        (fun j => mcBadParamsRequest.weights.getD j.val 0) mcBadParamsRequest.initial_value
        mcBadParamsRequest.n_simulations mcBadParamsRequest.n_days (fun _ _ => 0)
        (fun _ _ _ => 0)) := rfl
  refine ⟨rfl, by norm_num [mcBadParamsRequest], ⟨by simp [mcBadParamsRequest], by norm_num⟩, ?_, ?_⟩
  · rw [hrun, monteCarloCompute, hpd]
    simp [mcHandle]
  · rw [hrun, monteCarloCompute, hpd]
    simp only [if_true, mcHandle]
    show (List.range mcBadParamsRequest.n_simulations).map _ = _
    simp [mcBadParamsRequest, List.range_succ, gbmSimPath]

/-- C8: an asset with an undefined return anywhere inside a scenario window
is excluded from that window's usable subset; a window left with fewer than
2 usable assets, or whose benchmark is not a usable column, is skipped: its
event contributes to neither output list, so both lists (and the total
scenario count) are exactly those of the catalogue without it, and no error
is raised for the whole request. -/
theorem scenario_null_asset_excluded_and_window_skipped
    (exp : ℚ → ℚ) (nSim : Nat) (initialAmount : ℚ)
    (tickers : List String) (benchmark : String)
    (windows : ScenarioEvent → ReturnWindow) (weights : List ℚ)
    (chol : ScenarioEvent → Nat → Nat → ℚ) (shocks : ScenarioEvent → Nat → Nat → Nat → ℚ)
    (e : ScenarioEvent) (es1 es2 : List ScenarioEvent) (t : String)
    (ht : Option.none ∈ (windows e).rets t)
    (hskip : (availableTickers tickers (windows e)).length < 2 ∨
      benchmark ∉ (windows e).cols) :
    t ∉ availableTickers tickers (windows e) ∧
    processScenario exp nSim initialAmount tickers benchmark (chol e) (shocks e) e.label
        (windows e) = Option.none ∧
    scenarioStressTest exp (es1 ++ e :: es2) windows tickers weights benchmark chol shocks
        nSim initialAmount =
      scenarioStressTest exp (es1 ++ es2) windows tickers weights benchmark chol shocks
        nSim initialAmount := by
  have hcond : (availableTickers tickers (windows e)).length < 2 ∨
      (if benchmark ∈ (windows e).cols then Option.some benchmark else Option.none) =
        (Option.none : Option String) := by
    rcases hskip with h | h
    · exact Or.inl h
    · exact Or.inr (if_neg h)
  have hproc : processScenario exp nSim initialAmount tickers benchmark (chol e) (shocks e)
      e.label (windows e) = Option.none := by
    rw [processScenario]
    simp only [if_pos hcond]
  refine ⟨?_, hproc, ?_⟩
  · intro hmem
    have hcondmem := (List.mem_filter.mp hmem).2
    have hany : ((windows e).rets t).any (fun r => r.isNone) = true :=
      List.any_eq_true.mpr ⟨Option.none, ht, rfl⟩
    rw [Bool.and_eq_true, hany] at hcondmem
    simp at hcondmem
  · rw [scenarioStressTest, scenarioStressTest]
    simp [List.filterMap_append, List.filterMap_cons, hproc]

/-- Concrete scenario event used by the C8 witness. -/
def sampleScenarioEvent : ScenarioEvent :=
  { label := "2008 Global Financial Crisis", start := "2008-09-01", stop := "2009-03-01" }

/-- Concrete window used by the C8 witness: asset AA has an undefined return
inside the window, asset CC is not a column, so only BB is usable. -/
def sampleScenarioWindow : ReturnWindow :=
  { cols := ["AA", "BB", "SPY"]
    rets := fun t => if t = "AA" then [Option.some 0, Option.none] else [Option.some 0, Option.some 0]
    lastPrice := fun _ => 100
    nRows := 2 }

/-- Witness for C8 at the concrete window: AA has a null return and is
excluded, and the window keeps only one usable asset. -/
theorem scenario_null_asset_excluded_and_window_skipped_witness :
    (Option.none ∈ sampleScenarioWindow.rets "AA" ∧
      (availableTickers ["AA", "BB", "CC"] sampleScenarioWindow).length < 2) ∧
    "AA" ∉ availableTickers ["AA", "BB", "CC"] sampleScenarioWindow :=
  ⟨⟨by decide, by decide⟩,
    (scenario_null_asset_excluded_and_window_skipped (fun x => x) 2 1000 ["AA", "BB", "CC"]
      "SPY" (fun _ => sampleScenarioWindow) [] (fun _ _ _ => 0) (fun _ _ _ _ => 0)
      sampleScenarioEvent [] [] "AA" (by decide) (Or.inl (by decide))).1⟩
